import Mathlib

set_option maxRecDepth 8000

/- Shallow embedding of the Debate-to-Detect core (config.py, agent.py,
   engine.py, evidence_system.py).  Python strings are modelled as Lean
   Strings, with the character-level algorithms written over List Char so
   that every definition is executable by the kernel.  Python dicts with a
   fixed key set become structures; dicts used as finite maps become
   association lists.  Replies coming back from the language model are
   passed in as parameters, with Option String modelling a request that
   may raise. -/

/- ----------------------------------------------------------------- -/
/- config.py constants                                               -/
/- ----------------------------------------------------------------- -/

def MEMORY_SUMMARIZE_THRESHOLD : Nat := 20

def MEMORY_KEEP_RECENT : Nat := 10

def FREE_ROUNDS : Nat := 1

def ENABLE_EVIDENCE : Bool := true

def EVIDENCE_PHASE : String := "Free"

/- ----------------------------------------------------------------- -/
/- agent.py : memory manager                                         -/
/- ----------------------------------------------------------------- -/

/-- One chat message, the dict with keys role and content used in
agent.py and engine.py. -/
structure Msg where
  role : String
  content : String
deriving DecidableEq

/-- Agent.prepare_memory_context (agent.py lines 73-80).  The call
self.summarize_memory is an external request, passed in as the
function argument summarize; on failure the Python code substitutes a
placeholder string, which is just another value of that argument. -/
def prepare_memory_context (summarize : List Msg → String) (shared : List Msg) : List Msg :=
  if shared.length ≤ MEMORY_SUMMARIZE_THRESHOLD then shared
  else
    Msg.mk "system"
        ("[Debate Summary]: " ++ summarize (shared.take (shared.length - MEMORY_KEEP_RECENT)))
      :: shared.drop (shared.length - MEMORY_KEEP_RECENT)

/- ----------------------------------------------------------------- -/
/- engine.py : verdict                                               -/
/- ----------------------------------------------------------------- -/

/-- Debate.determine_verdict (engine.py lines 381-388), with the two
entries of the scores dict passed positionally. -/
def determine_verdict (affirmative negative : Int) : String :=
  if affirmative > negative then "REAL"
  else if negative > affirmative then "FAKE"
  else "UNCERTAIN"

/- ----------------------------------------------------------------- -/
/- engine.py : speaker sequencing                                    -/
/- ----------------------------------------------------------------- -/

/-- itertools.islice(itertools.cycle(l), n): the first n elements of the
cyclic repetition of l, empty when l is empty. -/
def cycleTake {α : Type} : Nat → List α → List α
  | 0, _ => []
  | _ + 1, [] => []
  | n + 1, x :: xs => x :: cycleTake n (xs ++ [x])

/-- Debate.get_speakers_sequence (engine.py lines 208-210), with
FREE_ROUNDS generalised to a parameter so the claim can quantify over
it (config.py fixes it to 1). -/
def get_speakers_sequence (freeRounds : Nat) (phase : String) (speakers : List String) : List String :=
  if phase != "Free" then speakers else cycleTake (2 * freeRounds) speakers

/-- The side prefix of a speaker name: the part before the first
underscore, as used by speaker.split(chr(95))[0] in engine.py. -/
def sideOfSpeaker (s : String) : String :=
  String.mk (s.data.takeWhile (fun c => c ≠ '_'))

/-- A speaker list alternates between sides when no two consecutive
entries carry the same side prefix. -/
def alternatesB : List String → Bool
  | x :: y :: rest => (sideOfSpeaker x != sideOfSpeaker y) && alternatesB (y :: rest)
  | _ => true

/- ----------------------------------------------------------------- -/
/- helper lemmas for C7                                              -/
/- ----------------------------------------------------------------- -/

theorem cycleTake_length {α : Type} : ∀ (n : Nat) (l : List α), l ≠ [] → (cycleTake n l).length = n
  | 0, _, _ => rfl
  | _ + 1, [], h => absurd rfl h
  | n + 1, x :: xs, _ => by
      have ih := cycleTake_length n (xs ++ [x]) (by simp)
      simp [cycleTake, ih]

theorem cycleTake_pair {α : Type} : ∀ (k : Nat) (a b : α),
    cycleTake (2 * k) [a, b] = (List.replicate k [a, b]).flatten
  | 0, _, _ => rfl
  | k + 1, a, b => by
      have h2 : 2 * (k + 1) = (2 * k) + 1 + 1 := by omega
      rw [h2]
      simp [cycleTake, cycleTake_pair k a b, List.replicate]

/- ----------------------------------------------------------------- -/
/- Claim C5                                                          -/
/- ----------------------------------------------------------------- -/

/-- C5: the verdict is REAL exactly when the Affirmative total is
strictly greater, FAKE exactly when the Negative total is strictly
greater, and UNCERTAIN exactly when the totals are equal; in
particular (4,3) gives REAL, (2,5) gives FAKE and (3,3) gives
UNCERTAIN. -/
theorem C5_verdict :
    (∀ a n : Int,
      (determine_verdict a n = "REAL" ↔ n < a)
      ∧ (determine_verdict a n = "FAKE" ↔ a < n)
      ∧ (determine_verdict a n = "UNCERTAIN" ↔ a = n))
    ∧ determine_verdict 4 3 = "REAL"
    ∧ determine_verdict 2 5 = "FAKE"
    ∧ determine_verdict 3 3 = "UNCERTAIN" := by
  refine ⟨fun a n => ?_, by decide, by decide, by decide⟩
  rcases lt_trichotomy a n with h | h | h
  · have e : determine_verdict a n = "FAKE" := by
      unfold determine_verdict
      rw [if_neg (by omega), if_pos (by omega)]
    rw [e]
    exact ⟨⟨fun hx => absurd hx (by decide), fun hx => absurd hx (by omega)⟩,
           ⟨fun _ => h, fun _ => rfl⟩,
           ⟨fun hx => absurd hx (by decide), fun hx => absurd hx (by omega)⟩⟩
  · have e : determine_verdict a n = "UNCERTAIN" := by
      unfold determine_verdict
      rw [if_neg (by omega), if_neg (by omega)]
    rw [e]
    exact ⟨⟨fun hx => absurd hx (by decide), fun hx => absurd hx (by omega)⟩,
           ⟨fun hx => absurd hx (by decide), fun hx => absurd hx (by omega)⟩,
           ⟨fun _ => h, fun _ => rfl⟩⟩
  · have e : determine_verdict a n = "REAL" := by
      unfold determine_verdict
      rw [if_pos (by omega)]
    rw [e]
    exact ⟨⟨fun _ => h, fun _ => rfl⟩,
           ⟨fun hx => absurd hx (by decide), fun hx => absurd hx (by omega)⟩,
           ⟨fun hx => absurd hx (by decide), fun hx => absurd hx (by omega)⟩⟩

/- ----------------------------------------------------------------- -/
/- Claim C6                                                          -/
/- ----------------------------------------------------------------- -/

/-- C6: prepare_memory_context returns the history unchanged when its
length is at most the summarize threshold; for longer histories the
result has exactly KEEP_RECENT + 1 entries, the first a system-role
entry whose content starts with the summary marker, the rest the last
KEEP_RECENT input entries verbatim. -/
theorem C6_prepare_context (summarize : List Msg → String) (shared : List Msg) :
    (shared.length ≤ MEMORY_SUMMARIZE_THRESHOLD →
       prepare_memory_context summarize shared = shared)
    ∧ (MEMORY_SUMMARIZE_THRESHOLD < shared.length →
       (prepare_memory_context summarize shared).length = MEMORY_KEEP_RECENT + 1
       ∧ (∃ s, (prepare_memory_context summarize shared).head? =
            some (Msg.mk "system" ("[Debate Summary]: " ++ s)))
       ∧ (prepare_memory_context summarize shared).tail =
            shared.drop (shared.length - MEMORY_KEEP_RECENT)) := by
  constructor
  · intro h
    simp [prepare_memory_context, h]
  · intro h
    have hh : ¬ shared.length ≤ MEMORY_SUMMARIZE_THRESHOLD := by omega
    have hlen : (prepare_memory_context summarize shared).length = MEMORY_KEEP_RECENT + 1 := by
      simp only [prepare_memory_context, if_neg hh, List.length_cons, List.length_drop]
      have h20 : MEMORY_SUMMARIZE_THRESHOLD = 20 := rfl
      have h10 : MEMORY_KEEP_RECENT = 10 := rfl
      omega
    refine ⟨hlen, ⟨summarize (shared.take (shared.length - MEMORY_KEEP_RECENT)), ?_⟩, ?_⟩
    · simp [prepare_memory_context, if_neg hh]
    · simp [prepare_memory_context, if_neg hh]

/-- C6 witness: a 21-entry history is compacted to 11 entries, a
5-entry history is returned unchanged. -/
theorem C6_prepare_context_witness :
    (MEMORY_SUMMARIZE_THRESHOLD < (List.replicate 21 (Msg.mk "user" "m")).length
      ∧ (prepare_memory_context (fun _ => "S") (List.replicate 21 (Msg.mk "user" "m"))).length =
          MEMORY_KEEP_RECENT + 1)
    ∧ ((List.replicate 5 (Msg.mk "user" "m")).length ≤ MEMORY_SUMMARIZE_THRESHOLD
      ∧ prepare_memory_context (fun _ => "S") (List.replicate 5 (Msg.mk "user" "m")) =
          List.replicate 5 (Msg.mk "user" "m")) :=
  ⟨⟨by decide, ((C6_prepare_context (fun _ => "S") (List.replicate 21 (Msg.mk "user" "m"))).2
      (by decide)).1⟩,
   ⟨by decide, (C6_prepare_context (fun _ => "S") (List.replicate 5 (Msg.mk "user" "m"))).1
      (by decide)⟩⟩

/- ----------------------------------------------------------------- -/
/- Claim C7                                                          -/
/- ----------------------------------------------------------------- -/

/-- C7 counterexample: with a three-entry roster and two free rounds the
Free-phase sequence is the cyclic prefix of length four, whose third
and fourth entries both carry the Affirmative side prefix, so the
sequence does not alternate between the two sides. -/
theorem C7_counterexample :
    get_speakers_sequence 2 "Free" ["Affirmative_Free", "Negative_Free", "Affirmative_Extra"]
      = ["Affirmative_Free", "Negative_Free", "Affirmative_Extra", "Affirmative_Free"]
    ∧ alternatesB
        (get_speakers_sequence 2 "Free" ["Affirmative_Free", "Negative_Free", "Affirmative_Extra"])
      = false := by
  constructor
  · rfl
  · rfl

/-- C7 (amended): non-Free phases use their roster as listed; for every
nonempty roster the Free sequence has length exactly 2 times the free
round count and, when that count is positive, starts with the first
roster entry; for a two-entry roster (the configured case) the Free
sequence is the round count many repetitions of the roster, hence
alternates between the two sides. -/
theorem C7_free_sequence :
    (∀ (fr : Nat) (phase : String) (roster : List String), phase ≠ "Free" →
       get_speakers_sequence fr phase roster = roster)
    ∧ (∀ (fr : Nat) (roster : List String), roster ≠ [] →
       (get_speakers_sequence fr "Free" roster).length = 2 * fr)
    ∧ (∀ (fr : Nat) (roster : List String), roster ≠ [] → 0 < fr →
       (get_speakers_sequence fr "Free" roster).head? = roster.head?)
    ∧ (∀ (fr : Nat) (a b : String),
       get_speakers_sequence fr "Free" [a, b] = (List.replicate fr [a, b]).flatten) := by
  refine ⟨?_, ?_, ?_, ?_⟩
  · intro fr phase roster h
    have hb : (phase == "Free") = false := beq_eq_false_iff_ne.mpr h
    simp [get_speakers_sequence, bne, hb]
  · intro fr roster h
    simp only [get_speakers_sequence, bne_self_eq_false, Bool.false_eq_true, if_false]
    exact cycleTake_length (2 * fr) roster h
  · intro fr roster h hfr
    obtain ⟨x, xs, rfl⟩ : ∃ x xs, roster = x :: xs := by
      cases roster with
      | nil => exact absurd rfl h
      | cons x xs => exact ⟨x, xs, rfl⟩
    obtain ⟨m, hm⟩ : ∃ m, 2 * fr = m + 1 := ⟨2 * fr - 1, by omega⟩
    simp only [get_speakers_sequence, bne_self_eq_false, Bool.false_eq_true, if_false, hm]
    rfl
  · intro fr a b
    simp only [get_speakers_sequence, bne_self_eq_false, Bool.false_eq_true, if_false]
    exact cycleTake_pair fr a b

/-- C7 witness: the amended statement evaluated at concrete inputs. -/
theorem C7_free_sequence_witness :
    ("Opening" ≠ "Free"
      ∧ get_speakers_sequence 1 "Opening" ["Affirmative_Opening", "Negative_Opening"] =
          ["Affirmative_Opening", "Negative_Opening"])
    ∧ ((["Affirmative_Free", "Negative_Free"] : List String) ≠ []
      ∧ (get_speakers_sequence 3 "Free" ["Affirmative_Free", "Negative_Free"]).length = 2 * 3) :=
  ⟨⟨by decide, C7_free_sequence.1 1 "Opening" ["Affirmative_Opening", "Negative_Opening"]
      (by decide)⟩,
   ⟨by decide, C7_free_sequence.2.1 3 ["Affirmative_Free", "Negative_Free"] (by decide)⟩⟩

/- ----------------------------------------------------------------- -/
/- character-level string helpers shared by several embeddings       -/
/- ----------------------------------------------------------------- -/

/-- Case-sensitive list-prefix test, the semantics of Python
startswith. -/
def isPrefixCL : List Char → List Char → Bool
  | [], _ => true
  | _ :: _, [] => false
  | p :: ps, c :: cs => p == c && isPrefixCL ps cs

/-- Python s.startswith(pre). -/
def startsWithS (s pre : String) : Bool := isPrefixCL pre.data s.data

/-- Python substring containment, pat in s, over char lists. -/
def containsCL (pat : List Char) : List Char → Bool
  | [] => pat.isEmpty
  | c :: cs => isPrefixCL pat (c :: cs) || containsCL pat cs

/- ----------------------------------------------------------------- -/
/- evidence_system.py : records, filtering, favorability             -/
/- ----------------------------------------------------------------- -/

/-- One Wikipedia evidence record (evidence_system.py search_wikipedia
plus the stance key added in gather_evidence); stance is Option so a
record without the key counts as NEUTRAL via dict.get. -/
structure EvidenceRecord where
  title : String
  extract : String
  url : String
  thumbnail : String
  stance : Option String
deriving DecidableEq

/-- The evidence dict returned by gather_evidence: keywords plus a map
from keyword to record, modelled as an association list. -/
structure EvidenceBundle where
  keywords : List String
  evidence : List (String × EvidenceRecord)
deriving DecidableEq

/-- info.get(the stance key, NEUTRAL). -/
def stanceOf (r : EvidenceRecord) : String := r.stance.getD "NEUTRAL"

/-- EvidenceSystem.filter_evidence_by_stance (evidence_system.py lines
141-157): on an empty evidence map the bundle is returned unchanged;
otherwise records whose stance is the desired one or NEUTRAL are
kept. -/
def filter_evidence_by_stance (d : EvidenceBundle) (desired : String) : EvidenceBundle :=
  if d.evidence.isEmpty then d
  else
    EvidenceBundle.mk d.keywords
      (d.evidence.filter (fun kv => stanceOf kv.2 == desired || stanceOf kv.2 == "NEUTRAL"))

/-- EvidenceSystem.has_favorable_evidence (evidence_system.py lines
173-183). -/
def has_favorable_evidence (d : EvidenceBundle) (stance : String) : Bool :=
  if d.evidence.isEmpty then false
  else d.evidence.any (fun kv => stanceOf kv.2 == stance)

/- helper lemmas for C8, C10 and C2 -/

theorem filter_evidence_eq (d : EvidenceBundle) (S : String) :
    filter_evidence_by_stance d S =
      EvidenceBundle.mk d.keywords
        (d.evidence.filter (fun kv => stanceOf kv.2 == S || stanceOf kv.2 == "NEUTRAL")) := by
  obtain ⟨kws, ev⟩ := d
  cases ev <;> rfl

theorem has_favorable_any (d : EvidenceBundle) (S : String) :
    has_favorable_evidence d S = d.evidence.any (fun kv => stanceOf kv.2 == S) := by
  obtain ⟨kws, ev⟩ := d
  cases ev <;> rfl

theorem any_filter {α : Type} (p q : α → Bool) : ∀ l : List α,
    (l.filter p).any q = l.any (fun a => p a && q a)
  | [] => rfl
  | x :: xs => by
      cases hp : p x <;> simp [List.filter_cons, hp, any_filter p q xs]

theorem any_congr {α : Type} (f g : α → Bool) (h : ∀ a, f a = g a) :
    ∀ l : List α, l.any f = l.any g
  | [] => rfl
  | x :: xs => by simp [List.any, h x, any_congr f g h xs]

theorem has_favorable_filter (d : EvidenceBundle) (S : String) :
    has_favorable_evidence (filter_evidence_by_stance d S) S = has_favorable_evidence d S := by
  rw [filter_evidence_eq, has_favorable_any, has_favorable_any]
  show (d.evidence.filter _).any _ = _
  rw [any_filter]
  refine any_congr _ _ (fun a => ?_) d.evidence
  cases hq : stanceOf a.2 == S <;> simp [hq]

theorem has_favorable_nonempty (d : EvidenceBundle) (S : String)
    (h : has_favorable_evidence d S = true) : d.evidence.isEmpty = false := by
  rw [has_favorable_any] at h
  cases hev : d.evidence with
  | nil => rw [hev] at h; simp [List.any] at h
  | cons x xs => rfl

/- ----------------------------------------------------------------- -/
/- Claim C8                                                          -/
/- ----------------------------------------------------------------- -/

/-- C8: the filtered bundle contains exactly the records whose stance
is the desired one or NEUTRAL (a missing stance key counting as
NEUTRAL), and has_favorable_evidence is true iff at least one record
has exactly the given stance. -/
theorem C8_filter_favorable :
    (∀ (d : EvidenceBundle) (S kw : String) (r : EvidenceRecord),
       (kw, r) ∈ (filter_evidence_by_stance d S).evidence ↔
         ((kw, r) ∈ d.evidence ∧ (stanceOf r = S ∨ stanceOf r = "NEUTRAL")))
    ∧ (∀ (d : EvidenceBundle) (S : String),
       has_favorable_evidence d S = true ↔ ∃ p ∈ d.evidence, stanceOf p.2 = S) := by
  constructor
  · intro d S kw r
    rw [filter_evidence_eq]
    simp [List.mem_filter]
  · intro d S
    rw [has_favorable_any]
    simp [List.any_eq_true]

/- ----------------------------------------------------------------- -/
/- Claim C10                                                         -/
/- ----------------------------------------------------------------- -/

/-- C10: checking favorability on the side's pre-filtered bundle is
the same as checking it on the full bundle: filtering never removes a
record whose stance is exactly the desired one. -/
theorem C10_filter_preserves_favorable (d : EvidenceBundle) (S : String) :
    has_favorable_evidence (filter_evidence_by_stance d S) S = has_favorable_evidence d S :=
  has_favorable_filter d S

/- ----------------------------------------------------------------- -/
/- engine.py : evidence for a speaker and prompt building            -/
/- ----------------------------------------------------------------- -/

/-- The evidence-related mutable state of a Debate run.  engine.py
initialises evidence_data, affirmative_evidence and negative_evidence
to None and gather_evidence (lines 169-192) is the only writer,
setting the side bundles to the two filtered views of evidence_data;
so the reachable states are the initial one and the gathered one. -/
inductive EvidenceState where
  | noEvidence : EvidenceState
  | gathered (d : EvidenceBundle) : EvidenceState
deriving DecidableEq

/-- self.evidence_data in the two reachable states. -/
def evidence_data : EvidenceState → Option EvidenceBundle
  | .noEvidence => none
  | .gathered d => some d

/-- Debate.get_evidence_for_speaker (engine.py lines 220-240); the side
bundles are the filtered views set by gather_evidence. -/
def get_evidence_for_speaker (st : EvidenceState) (speaker : String) : Option EvidenceBundle :=
  if ENABLE_EVIDENCE = false then none
  else
    match st with
    | .noEvidence => none
    | .gathered d =>
      if startsWithS speaker "Affirmative" then
        let ae := filter_evidence_by_stance d "SUPPORTS_TRUE"
        if has_favorable_evidence ae "SUPPORTS_TRUE" then some ae else none
      else if startsWithS speaker "Negative" then
        let ng := filter_evidence_by_stance d "SUPPORTS_FALSE"
        if has_favorable_evidence ng "SUPPORTS_FALSE" then some ng else none
      else none

/-- Debate.get_fixed_stance (engine.py lines 112-118). -/
def get_fixed_stance (speaker : String) : String :=
  let first := String.mk (speaker.data.takeWhile (fun c => c ≠ '_'))
  if first = "Affirmative" then "**Your fixed stance is that the news is true.**"
  else if first = "Negative" then "**Your fixed stance is that the news is false.**"
  else ""

/-- extract[:300] plus an ellipsis when longer than 300 characters. -/
def truncExtract (s : String) : String :=
  String.mk (s.data.take 300) ++ (if 300 < s.data.length then "..." else "")

/-- EvidenceSystem.format_evidence_for_debate (evidence_system.py lines
159-171). -/
def format_evidence_for_debate (d : EvidenceBundle) : String :=
  if d.evidence.isEmpty then "No external evidence was found to support the claims."
  else
    "**Available Evidence from Wikipedia:**\n\n" ++
      String.join (d.evidence.map (fun kv =>
        "**" ++ kv.2.title ++ ":**\n" ++ truncExtract kv.2.extract ++
          "\nSource: " ++ kv.2.url ++ "\n\n"))

/-- The Free template from PHASE_TEMPLATES in config.py. -/
def PHASE_TEMPLATE_Free : String :=
  "Free-debate round \x7bturn\x7d. Your opponent just said:\n\"\x7bopp\x7d\"\nRespond accordingly. Concise and Comprehensive"

/-- The Free_Evidence template from PHASE_TEMPLATES in config.py. -/
def PHASE_TEMPLATE_Free_Evidence : String :=
  "Free-debate round \x7bturn\x7d with evidence support. Your opponent just said:\n\"\x7bopp\x7d\"\n\nAvailable evidence:\n\x7bevidence\x7d\n\nUse the evidence above to support your arguments and respond accordingly. Concise and Comprehensive"

/-- Python str.format on the phase templates, realised as slot
replacement; the concrete templates contain each slot at most once. -/
def pyFormat (template news : String) (turn : Nat) (opp : String) : String :=
  ((template.replace "\x7bnews\x7d" news).replace "\x7bturn\x7d" (toString turn)).replace
    "\x7bopp\x7d" opp

/-- str.format including the evidence slot. -/
def pyFormatEv (template news : String) (turn : Nat) (opp evidence : String) : String :=
  (pyFormat template news turn opp).replace "\x7bevidence\x7d" evidence

/-- The evidence branch of Debate.build_prompt (engine.py lines
246-261): the bundle presented to the speaker, or none when the code
falls through to the plain template. -/
def build_prompt_evidence (st : EvidenceState) (speaker phase : String) : Option EvidenceBundle :=
  if (phase == "Free") && ENABLE_EVIDENCE && (evidence_data st).isSome then
    match get_evidence_for_speaker st speaker with
    | some se => if se.evidence.isEmpty then none else some se
    | none => none
  else none

/-- Debate.build_prompt (engine.py lines 242-276); opp stands for the
last opponent utterance scanned from the shared context, passed in as
a parameter. -/
def build_prompt (st : EvidenceState) (speaker template news : String) (turn : Nat)
    (opp phase : String) : String :=
  let stance := get_fixed_stance speaker
  let base :=
    match build_prompt_evidence st speaker phase with
    | some se =>
        pyFormatEv PHASE_TEMPLATE_Free_Evidence news turn opp (format_evidence_for_debate se)
    | none => pyFormat template news turn opp
  if stance == "" then base else stance ++ "\n\n" ++ base

/-- The speaker side has favorable evidence in the full bundle. -/
def side_has_favorable (speaker : String) (d : EvidenceBundle) : Bool :=
  if startsWithS speaker "Affirmative" then has_favorable_evidence d "SUPPORTS_TRUE"
  else if startsWithS speaker "Negative" then has_favorable_evidence d "SUPPORTS_FALSE"
  else false

theorem build_prompt_evidence_gathered (d : EvidenceBundle) (sp ph : String) :
    (build_prompt_evidence (EvidenceState.gathered d) sp ph).isSome =
      ((ph == "Free") && side_has_favorable sp d) := by
  unfold build_prompt_evidence
  cases hp : ph == "Free"
  · simp [hp]
  · simp only [hp, ENABLE_EVIDENCE, evidence_data, Option.isSome_some, Bool.and_true,
      Bool.true_and]
    unfold get_evidence_for_speaker side_has_favorable
    simp only [ENABLE_EVIDENCE]
    cases hA : startsWithS sp "Affirmative"
    · cases hN : startsWithS sp "Negative"
      · simp [hA, hN]
      · have hfl := has_favorable_filter d "SUPPORTS_FALSE"
        cases hf : has_favorable_evidence (filter_evidence_by_stance d "SUPPORTS_FALSE")
            "SUPPORTS_FALSE"
        · rw [hf] at hfl
          simp [hA, hN, hf, ← hfl]
        · rw [hf] at hfl
          have hne := has_favorable_nonempty _ _ hf
          simp [hA, hN, hf, ← hfl, hne]
    · have hfl := has_favorable_filter d "SUPPORTS_TRUE"
      cases hf : has_favorable_evidence (filter_evidence_by_stance d "SUPPORTS_TRUE")
          "SUPPORTS_TRUE"
      · rw [hf] at hfl
        simp [hA, hf, ← hfl]
      · rw [hf] at hfl
        have hne := has_favorable_nonempty _ _ hf
        simp [hA, hf, ← hfl, hne]

/- ----------------------------------------------------------------- -/
/- Claim C2                                                          -/
/- ----------------------------------------------------------------- -/

/-- C2: with evidence gathered, the evidence branch of build_prompt
fires exactly when the phase is the configured evidence phase and the
speaker side has favorable evidence in the bundle; before evidence is
gathered it never fires; and whenever it does not fire the prompt is
the plain template instantiation (with the stance reminder prefix),
containing no evidence block. -/
theorem C2_evidence_injection :
    (∀ (d : EvidenceBundle) (speaker phase : String),
       (build_prompt_evidence (EvidenceState.gathered d) speaker phase).isSome = true ↔
         (phase = EVIDENCE_PHASE ∧ side_has_favorable speaker d = true))
    ∧ (∀ speaker phase, build_prompt_evidence EvidenceState.noEvidence speaker phase = none)
    ∧ (∀ (st : EvidenceState) (speaker template news : String) (turn : Nat) (opp phase : String),
       build_prompt_evidence st speaker phase = none →
       build_prompt st speaker template news turn opp phase =
         (if get_fixed_stance speaker == "" then pyFormat template news turn opp
          else get_fixed_stance speaker ++ "\n\n" ++ pyFormat template news turn opp)) := by
  refine ⟨?_, ?_, ?_⟩
  · intro d sp ph
    rw [build_prompt_evidence_gathered]
    simp [EVIDENCE_PHASE, Bool.and_eq_true]
  · intro sp ph
    simp [build_prompt_evidence, evidence_data]
  · intro st sp tpl news turn opp ph h
    simp only [build_prompt, h]

/-- C2 witness: a concrete bundle with one SUPPORTS_TRUE record makes
the Affirmative Free-phase branch fire, and a Rebuttal-phase turn with
the same state takes the plain template. -/
theorem C2_evidence_injection_witness :
    ((build_prompt_evidence
        (EvidenceState.gathered
          (EvidenceBundle.mk ["k"]
            [("k", EvidenceRecord.mk "T" "E" "U" "" (some "SUPPORTS_TRUE"))]))
        "Affirmative_Free" "Free").isSome = true ↔
      ("Free" = EVIDENCE_PHASE ∧
        side_has_favorable "Affirmative_Free"
          (EvidenceBundle.mk ["k"]
            [("k", EvidenceRecord.mk "T" "E" "U" "" (some "SUPPORTS_TRUE"))]) = true))
    ∧ (build_prompt_evidence EvidenceState.noEvidence "Affirmative_Free" "Free" = none →
       build_prompt EvidenceState.noEvidence "Affirmative_Free" PHASE_TEMPLATE_Free "news" 1
          "opp" "Free" =
         (if get_fixed_stance "Affirmative_Free" == "" then
            pyFormat PHASE_TEMPLATE_Free "news" 1 "opp"
          else get_fixed_stance "Affirmative_Free" ++ "\n\n" ++
            pyFormat PHASE_TEMPLATE_Free "news" 1 "opp")) :=
  ⟨C2_evidence_injection.1 _ "Affirmative_Free" "Free",
   C2_evidence_injection.2.2 EvidenceState.noEvidence "Affirmative_Free" PHASE_TEMPLATE_Free
     "news" 1 "opp" "Free"⟩

/- ----------------------------------------------------------------- -/
/- more character-level helpers: strip, whitespace, line splitting   -/
/- ----------------------------------------------------------------- -/

/-- The characters Python str.strip removes by default. -/
def wsChars : List Char := [' ', '\t', '\n', '\r', '\x0b', '\x0c']

/-- Python str.strip(chars): drop the given characters from both
ends. -/
def pyStrip (chars : List Char) (l : List Char) : List Char :=
  ((l.dropWhile (fun c => chars.contains c)).reverse.dropWhile
      (fun c => chars.contains c)).reverse

/-- Skip JSON / regex whitespace. -/
def skipWs : List Char → List Char
  | c :: cs => if c = ' ' ∨ c = '\t' ∨ c = '\n' ∨ c = '\r' then skipWs cs else c :: cs
  | [] => []

/-- Python s.split(sep) for a one-character separator. -/
def splitOnChar (sep : Char) : List Char → List (List Char)
  | [] => [[]]
  | c :: cs =>
    if c = sep then [] :: splitOnChar sep cs
    else
      match splitOnChar sep cs with
      | h :: t => (c :: h) :: t
      | [] => [[c]]

/- ----------------------------------------------------------------- -/
/- evidence_system.py : stance classification                        -/
/- ----------------------------------------------------------------- -/

/-- response.strip().upper() as a char list. -/
def stanceUp (r : String) : List Char := (pyStrip wsChars r.data).map Char.toUpper

/-- EvidenceSystem.evaluate_evidence_stance (evidence_system.py lines
90-112): the classification reply is an external request result,
Option String models the try/except; the label tests are Python
substring membership on the stripped upper-cased reply. -/
def evaluate_evidence_stance (response : Option String) : String :=
  match response with
  | none => "NEUTRAL"
  | some resp =>
    if containsCL "SUPPORTS_TRUE".data (stanceUp resp)
        || containsCL "TRUE".data (stanceUp resp) then "SUPPORTS_TRUE"
    else if containsCL "SUPPORTS_FALSE".data (stanceUp resp)
        || containsCL "FALSE".data (stanceUp resp) then "SUPPORTS_FALSE"
    else "NEUTRAL"

/-- Modelled from the claim wording for comparison: substring matching
that checks the compound tokens SUPPORTS_TRUE and SUPPORTS_FALSE
before the bare words TRUE and FALSE. -/
def evaluate_evidence_stance_claimed (response : Option String) : String :=
  match response with
  | none => "NEUTRAL"
  | some resp =>
    if containsCL "SUPPORTS_TRUE".data (stanceUp resp) then "SUPPORTS_TRUE"
    else if containsCL "SUPPORTS_FALSE".data (stanceUp resp) then "SUPPORTS_FALSE"
    else if containsCL "TRUE".data (stanceUp resp) then "SUPPORTS_TRUE"
    else if containsCL "FALSE".data (stanceUp resp) then "SUPPORTS_FALSE"
    else "NEUTRAL"

/- ----------------------------------------------------------------- -/
/- Claim C3                                                          -/
/- ----------------------------------------------------------------- -/

/-- C3 counterexample: on a reply containing the bare word TRUE and
the compound token SUPPORTS_FALSE, the code classifies SUPPORTS_TRUE
because it tests the TRUE group first, while the claimed order,
compound tokens before bare words, would classify SUPPORTS_FALSE. -/
theorem C3_counterexample :
    evaluate_evidence_stance (some "It is not TRUE that X; this SUPPORTS_FALSE.")
        = "SUPPORTS_TRUE"
    ∧ evaluate_evidence_stance_claimed (some "It is not TRUE that X; this SUPPORTS_FALSE.")
        = "SUPPORTS_FALSE"
    ∧ ("SUPPORTS_TRUE" : String) ≠ "SUPPORTS_FALSE" :=
  ⟨rfl, rfl, by decide⟩

/-- C3 (amended): the classifier checks the TRUE group, compound
SUPPORTS_TRUE or bare TRUE, before the FALSE group, compound
SUPPORTS_FALSE or bare FALSE, on the stripped upper-cased reply; a
reply matching neither group yields NEUTRAL, and a failed
classification request yields NEUTRAL. -/
theorem C3_stance_order :
    (∀ r : String,
      (evaluate_evidence_stance (some r) = "SUPPORTS_TRUE" ↔
        (containsCL "SUPPORTS_TRUE".data (stanceUp r)
          || containsCL "TRUE".data (stanceUp r)) = true)
      ∧ (evaluate_evidence_stance (some r) = "SUPPORTS_FALSE" ↔
        ((containsCL "SUPPORTS_TRUE".data (stanceUp r)
            || containsCL "TRUE".data (stanceUp r)) = false
          ∧ (containsCL "SUPPORTS_FALSE".data (stanceUp r)
            || containsCL "FALSE".data (stanceUp r)) = true))
      ∧ (evaluate_evidence_stance (some r) = "NEUTRAL" ↔
        ((containsCL "SUPPORTS_TRUE".data (stanceUp r)
            || containsCL "TRUE".data (stanceUp r)) = false
          ∧ (containsCL "SUPPORTS_FALSE".data (stanceUp r)
            || containsCL "FALSE".data (stanceUp r)) = false)))
    ∧ evaluate_evidence_stance none = "NEUTRAL" := by
  constructor
  · intro r
    cases h1 : containsCL "SUPPORTS_TRUE".data (stanceUp r)
        || containsCL "TRUE".data (stanceUp r) <;>
      cases h2 : containsCL "SUPPORTS_FALSE".data (stanceUp r)
          || containsCL "FALSE".data (stanceUp r) <;>
        simp [evaluate_evidence_stance, h1, h2]
  · rfl

/- ----------------------------------------------------------------- -/
/- evidence_system.py : keyword extraction                           -/
/- ----------------------------------------------------------------- -/

/-- Body of a JSON string literal up to the closing quote. -/
def strLitBody : List Char → Option (List Char × List Char)
  | [] => none
  | c :: r =>
    if c = '"' then some ([], r)
    else (strLitBody r).map (fun p => (c :: p.1, p.2))

/-- A JSON string literal, returning content and rest. -/
def parseStringLit : List Char → Option (List Char × List Char)
  | [] => none
  | c :: r => if c = '"' then strLitBody r else none

/-- Members of a JSON array of string literals, after the opening
bracket, consuming up to and including the closing bracket. -/
def parseArrMembers : Nat → List Char → Option (List String × List Char)
  | 0, _ => none
  | fuel + 1, cs =>
    match parseStringLit (skipWs cs) with
    | none => none
    | some (k, r1) =>
      match skipWs r1 with
      | c :: r2 =>
        if c = ',' then
          match parseArrMembers fuel r2 with
          | some (xs, rest) => some (String.mk k :: xs, rest)
          | none => none
        else if c = ']' then some ([String.mk k], r2)
        else none
      | [] => none

/-- Model of json.loads restricted to arrays of string literals, the
shape the keyword extractor requests; any other input is a parse
failure, which Python surfaces as an exception. -/
def parseJsonArr (s : List Char) : Option (List String) :=
  match skipWs s with
  | c :: r =>
    if c = '[' then
      match skipWs r with
      | c2 :: r2 =>
        if c2 = ']' then (if (skipWs r2).isEmpty then some [] else none)
        else
          match parseArrMembers (s.length + 1) (c2 :: r2) with
          | some (xs, rest) => if (skipWs rest).isEmpty then some xs else none
          | none => none
      | [] => none
    else none
  | [] => none

/-- Collect characters up to and including the first closing
delimiter. -/
def takeUpToChar (close : Char) : List Char → Option (List Char)
  | [] => none
  | c :: cs =>
    if c = close then some [c]
    else (takeUpToChar close cs).map (fun r => c :: r)

/-- The non-greedy first delimited block, the semantics of
re.search with an opening delimiter, a lazy dot-star and a closing
delimiter under DOTALL. -/
def firstBlock (op cl : Char) : List Char → Option (List Char)
  | [] => none
  | c :: cs =>
    if c = op then (takeUpToChar cl cs).map (fun r => c :: r)
    else firstBlock op cl cs

/-- The characters stripped from bullet lines in the line-splitting
fallback. -/
def bulletChars : List Char := [' ', '-', '•', '*']

/-- The line-splitting fallback of
EvidenceSystem.parse_keywords_response (evidence_system.py lines
59-61). -/
def lineFallback (response : String) : List String :=
  let rawLines := splitOnChar '\n' response.data
  let kept := rawLines.filter (fun l => !(pyStrip wsChars l).isEmpty)
  let stripped := kept.map (fun l => pyStrip bulletChars l)
  ((stripped.filter (fun l => !l.isEmpty && !isPrefixCL "[".data l)).map String.mk).take 4

/-- EvidenceSystem.parse_keywords_response (evidence_system.py lines
47-65): strict branch when the stripped reply starts with a bracket,
else the first bracket-delimited block, else line splitting; the
surrounding try/except turns any parse failure into the empty list. -/
def parse_keywords_response (response : String) : List String :=
  let st := pyStrip wsChars response.data
  if isPrefixCL "[".data st then
    match parseJsonArr st with
    | some xs => xs
    | none => []
  else
    match firstBlock '[' ']' response.data with
    | some block =>
      match parseJsonArr block with
      | some xs => xs
      | none => []
    | none => lineFallback response

/-- EvidenceSystem.extract_keywords (evidence_system.py lines 36-45):
none models a failing extraction request caught by the except
clause. -/
def extract_keywords (response : Option String) : List String :=
  match response with
  | none => []
  | some r => (parse_keywords_response r).take 5

/- ----------------------------------------------------------------- -/
/- Claim C9                                                          -/
/- ----------------------------------------------------------------- -/

/-- C9 counterexample: a reply that is not parseable as JSON but
contains the embedded array with the single element alpha is not
recovered from that array: the first bracket-delimited block is the
invalid block with x, its parse failure is caught, and the result is
the empty list instead of the claimed recovery. -/
theorem C9_counterexample :
    extract_keywords (some "see [x] and [\"alpha\"]") = []
    ∧ containsCL "[\"alpha\"]".data "see [x] and [\"alpha\"]".data = true
    ∧ parseJsonArr "[\"alpha\"]".data = some ["alpha"]
    ∧ ([] : List String) ≠ ["alpha"] :=
  ⟨rfl, rfl, rfl, by decide⟩

/-- C9 (amended): extract_keywords always returns at most 5 entries
and never raises; a failing request yields the empty list; a reply
whose stripped form starts with a bracket is parsed strictly, accepted
as-is truncated to 5 on success and yielding the empty list on parse
failure; otherwise the first bracket-delimited block is recovered when
it parses as a JSON array, a failing block parse yields the empty
list, and a reply with no bracket block is line-split into at most 4
bullet-like items. -/
theorem C9_keywords :
    (∀ response, (extract_keywords response).length ≤ 5)
    ∧ extract_keywords none = []
    ∧ (∀ (r : String) (xs : List String),
        isPrefixCL "[".data (pyStrip wsChars r.data) = true →
        parseJsonArr (pyStrip wsChars r.data) = some xs →
        extract_keywords (some r) = xs.take 5)
    ∧ (∀ r : String,
        isPrefixCL "[".data (pyStrip wsChars r.data) = true →
        parseJsonArr (pyStrip wsChars r.data) = none →
        extract_keywords (some r) = [])
    ∧ (∀ (r : String) (block : List Char) (xs : List String),
        isPrefixCL "[".data (pyStrip wsChars r.data) = false →
        firstBlock '[' ']' r.data = some block →
        parseJsonArr block = some xs →
        extract_keywords (some r) = xs.take 5)
    ∧ (∀ (r : String) (block : List Char),
        isPrefixCL "[".data (pyStrip wsChars r.data) = false →
        firstBlock '[' ']' r.data = some block →
        parseJsonArr block = none →
        extract_keywords (some r) = [])
    ∧ (∀ r : String,
        isPrefixCL "[".data (pyStrip wsChars r.data) = false →
        firstBlock '[' ']' r.data = none →
        extract_keywords (some r) = (lineFallback r).take 5
          ∧ (lineFallback r).length ≤ 4) := by
  refine ⟨?_, rfl, ?_, ?_, ?_, ?_, ?_⟩
  · intro response
    cases response with
    | none => simp [extract_keywords]
    | some r =>
      simp only [extract_keywords, List.length_take]
      omega
  · intro r xs h1 h2
    simp only [extract_keywords, parse_keywords_response, h1, if_true, h2]
  · intro r h1 h2
    simp only [extract_keywords, parse_keywords_response, h1, if_true, h2, List.take_nil]
  · intro r block xs h1 h2 h3
    simp only [extract_keywords, parse_keywords_response, h1, Bool.false_eq_true, if_false,
      h2, h3]
  · intro r block h1 h2 h3
    simp only [extract_keywords, parse_keywords_response, h1, Bool.false_eq_true, if_false,
      h2, h3, List.take_nil]
  · intro r h1 h2
    refine ⟨?_, ?_⟩
    · simp only [extract_keywords, parse_keywords_response, h1, Bool.false_eq_true, if_false,
        h2]
    · simp only [lineFallback, List.length_take]
      omega

/-- C9 witness: a strict six-element JSON array reply is accepted and
truncated to five entries. -/
theorem C9_keywords_witness :
    isPrefixCL "[".data (pyStrip wsChars "[\"a\", \"b\", \"c\", \"d\", \"e\", \"f\"]".data) = true
    ∧ parseJsonArr (pyStrip wsChars "[\"a\", \"b\", \"c\", \"d\", \"e\", \"f\"]".data) =
        some ["a", "b", "c", "d", "e", "f"]
    ∧ extract_keywords (some "[\"a\", \"b\", \"c\", \"d\", \"e\", \"f\"]") =
        (["a", "b", "c", "d", "e", "f"] : List String).take 5 :=
  ⟨rfl, rfl, C9_keywords.2.2.1 "[\"a\", \"b\", \"c\", \"d\", \"e\", \"f\"]"
      ["a", "b", "c", "d", "e", "f"] rfl rfl⟩

/- ----------------------------------------------------------------- -/
/- engine.py : score extraction                                      -/
/- ----------------------------------------------------------------- -/

/-- Decimal value of a digit string. -/
def natFromDigits (ds : List Char) : Nat :=
  ds.foldl (fun a c => a * 10 + (c.toNat - 48)) 0

/-- A maximal nonempty run of digits. -/
def parseDigits (cs : List Char) : Option (Nat × List Char) :=
  let ds := cs.takeWhile Char.isDigit
  if ds.isEmpty then none else some (natFromDigits ds, cs.dropWhile Char.isDigit)

/-- A JSON integer literal. -/
def parseIntLit : List Char → Option (Int × List Char)
  | [] => none
  | c :: cs =>
    if c = '-' then (parseDigits cs).map (fun p => (-(p.1 : Int), p.2))
    else (parseDigits (c :: cs)).map (fun p => ((p.1 : Int), p.2))

/-- Members of a JSON object with string keys and integer values,
consuming up to and including the closing brace. -/
def parseObjMembers : Nat → List Char → Option (List (String × Int) × List Char)
  | 0, _ => none
  | fuel + 1, cs =>
    match parseStringLit (skipWs cs) with
    | none => none
    | some (k, r1) =>
      match skipWs r1 with
      | c :: r2 =>
        if c = ':' then
          match parseIntLit (skipWs r2) with
          | none => none
          | some (v, r3) =>
            match skipWs r3 with
            | c2 :: r4 =>
              if c2 = ',' then
                match parseObjMembers fuel r4 with
                | some (ps, rest) => some ((String.mk k, v) :: ps, rest)
                | none => none
              else if c2 = '\x7d' then some ([(String.mk k, v)], r4)
              else none
            | [] => none
        else none
      | [] => none

/-- Model of json.loads restricted to flat objects with string keys
and integer values, the shape the judge prompt requests; any other
input is a parse failure, which Python surfaces as an exception. -/
def parseJsonObj (s : List Char) : Option (List (String × Int)) :=
  match skipWs s with
  | c :: r =>
    if c = '\x7b' then
      match skipWs r with
      | c2 :: r2 =>
        if c2 = '\x7d' then (if (skipWs r2).isEmpty then some [] else none)
        else
          match parseObjMembers (s.length + 1) (c2 :: r2) with
          | some (ps, rest) => if (skipWs rest).isEmpty then some ps else none
          | none => none
      | [] => none
    else none
  | [] => none

/-- Stage one of Debate.extract (engine.py lines 447-453): the first
brace-delimited block, parsed as an object, with dict.get defaulting
the missing side to 0; none models the except clause falling through
to the regex fallback. -/
def jsonStage (text : List Char) (side : String) : Option Int :=
  match firstBlock '\x7b' '\x7d' text with
  | none => none
  | some block =>
    match parseJsonObj block with
    | some pairs => some ((pairs.lookup side).getD 0)
    | none => none

/-- Case-insensitive character comparison, the effect of re.I. -/
def lcEq (a b : Char) : Bool := a.toLower == b.toLower

/-- Case-insensitive literal match returning the rest of the input. -/
def matchLit : List Char → List Char → Option (List Char)
  | [], rest => some rest
  | _ :: _, [] => none
  | p :: ps, c :: cs => if lcEq p c then matchLit ps cs else none

/-- The tail of the fallback pattern: optional whitespace, a colon or
an equals sign, optional whitespace, an optional opening bracket,
optional whitespace, one digit, whose value is returned. -/
def matchAfterName (cs : List Char) : Option Nat :=
  match skipWs cs with
  | c :: r2 =>
    if c = ':' ∨ c = '=' then
      let r3 := skipWs r2
      let r4 :=
        match r3 with
        | c2 :: t => if c2 = '[' then t else r3
        | [] => r3
      match skipWs r4 with
      | d :: _ => if d.isDigit then some (d.toNat - 48) else none
      | [] => none
    else none
  | [] => none

/-- The fallback pattern anchored at one position: the regex
alternation tries the full side name first, then its first letter. -/
def fallbackAt (side abbr cs : List Char) : Option Nat :=
  match matchLit side cs with
  | some rest =>
    match matchAfterName rest with
    | some d => some d
    | none =>
      match matchLit abbr cs with
      | some rest2 => matchAfterName rest2
      | none => none
  | none =>
    match matchLit abbr cs with
    | some rest2 => matchAfterName rest2
    | none => none

/-- re.search for the fallback pattern: leftmost match wins. -/
def fallbackSearch (side abbr : List Char) : List Char → Option Nat
  | [] => none
  | c :: cs =>
    match fallbackAt side abbr (c :: cs) with
    | some d => some d
    | none => fallbackSearch side abbr cs

/-- Debate.extract (engine.py lines 444-457). -/
def extract (text side : String) : Int :=
  match jsonStage text.data side with
  | some v => v
  | none =>
    match fallbackSearch side.data (side.data.take 1) text.data with
    | some d => (d : Int)
    | none => 0

/-- A judge reply in exactly the JSON format the judge prompt
instructs. -/
def mkJudgeReply (a n : Nat) : String :=
  "\x7b\"Affirmative\": " ++ toString a ++ ", \"Negative\": " ++ toString n ++ "\x7d"

/- ----------------------------------------------------------------- -/
/- Claim C4                                                          -/
/- ----------------------------------------------------------------- -/

/-- C4: extraction takes the first brace-delimited block parsed as an
object when that succeeds, otherwise the first case-insensitive match
of the side name or its first letter followed by a colon or equals
sign and a digit, otherwise 0; the three example replies evaluate to
(5,2), (4,3) and (0,0). -/
theorem C4_extract_staged :
    (extract "Here are my scores: \x7b\"Affirmative\": 5, \"Negative\": 2\x7d based on the debate."
        "Affirmative" = 5
      ∧ extract "Here are my scores: \x7b\"Affirmative\": 5, \"Negative\": 2\x7d based on the debate."
        "Negative" = 2)
    ∧ (extract "Affirmative: 4, N=3" "Affirmative" = 4
      ∧ extract "Affirmative: 4, N=3" "Negative" = 3)
    ∧ (extract "The debate was inconclusive." "Affirmative" = 0
      ∧ extract "The debate was inconclusive." "Negative" = 0)
    ∧ (∀ (text side : String) (v : Int),
        jsonStage text.data side = some v → extract text side = v)
    ∧ (∀ (text side : String) (d : Nat),
        jsonStage text.data side = none →
        fallbackSearch side.data (side.data.take 1) text.data = some d →
        extract text side = (d : Int))
    ∧ (∀ text side : String,
        jsonStage text.data side = none →
        fallbackSearch side.data (side.data.take 1) text.data = none →
        extract text side = 0) := by
  refine ⟨⟨rfl, rfl⟩, ⟨rfl, rfl⟩, ⟨rfl, rfl⟩, ?_, ?_, ?_⟩
  · intro text side v h
    simp only [extract, h]
  · intro text side d h1 h2
    simp only [extract, h1, h2]
  · intro text side h1 h2
    simp only [extract, h1, h2]

/-- C4 witness: a reply with no JSON block but a fallback match
extracts via stage two. -/
theorem C4_extract_witness :
    jsonStage "Scores: A=4".data "Affirmative" = none
    ∧ fallbackSearch "Affirmative".data ("Affirmative".data.take 1) "Scores: A=4".data = some 4
    ∧ extract "Scores: A=4" "Affirmative" = ((4 : Nat) : Int) :=
  ⟨rfl, rfl, C4_extract_staged.2.2.2.2.1 "Scores: A=4" "Affirmative" 4 rfl rfl⟩

/- ----------------------------------------------------------------- -/
/- Claim C1                                                          -/
/- ----------------------------------------------------------------- -/

/-- C1 counterexample: extraction does not enforce the sum rule; a
reply with neither score form extracts 0 for both sides, so the two
extracted values sum to 0, not 7.  The sum-to-7 rule is only an
instruction in the judge prompt text. -/
theorem C1_counterexample :
    ¬ (∀ reply : String, extract reply "Affirmative" + extract reply "Negative" = 7) :=
  fun h => absurd (h "") (by decide)

/-- C1 (amended): when a judge reply is in the instructed JSON format
with integer scores that add up to 7, the two extracted values are
those scores and sum to exactly 7; extraction itself does not enforce
the invariant for arbitrary replies. -/
theorem C1_sum_for_wellformed (a n : Nat) (h : a + n = 7) :
    extract (mkJudgeReply a n) "Affirmative" = a
    ∧ extract (mkJudgeReply a n) "Negative" = n
    ∧ extract (mkJudgeReply a n) "Affirmative" + extract (mkJudgeReply a n) "Negative" = 7 := by
  have ha : a ≤ 7 := by omega
  have hn : n ≤ 7 := by omega
  interval_cases a <;> interval_cases n <;> revert h <;> decide

/-- C1 witness: the amended statement at the concrete reply with
scores 4 and 3. -/
theorem C1_sum_witness :
    4 + 3 = 7
    ∧ (extract (mkJudgeReply 4 3) "Affirmative" = 4
      ∧ extract (mkJudgeReply 4 3) "Negative" = 3
      ∧ extract (mkJudgeReply 4 3) "Affirmative" + extract (mkJudgeReply 4 3) "Negative" = 7) :=
  ⟨rfl, C1_sum_for_wellformed 4 3 rfl⟩
